import Mathlib

/-!
Shallow embedding of `src/property_brief.py` (the homekey property-brief
pipeline) and proofs about it.

Modelling conventions:
* Python strings are `String`; `str.lower()`, `str.strip()`, substring tests
  (`x in y`) and `sorted` are modelled by structurally recursive functions on
  the underlying character lists so that every definition evaluates inside the
  kernel.
* A Python dict with a fixed key set is a structure whose fields carry the
  source key names.  An image dict from the caller may lack any of its keys,
  so `ImageInput` fields are `Option`-valued (`dict.get` semantics).
* The OpenAI dependency is modelled by an `Env` (is the library importable,
  what does `os.getenv` return) plus an oracle for the network completion
  call.  Exceptions are `Except Err`: `Err.configError` models the
  `RuntimeError`s raised by `_get_openai_client`, `Err.serviceError` models a
  failure raised by the client library during the completion call itself.
-/

/-- Model of `str.lower()`: lower-case every character. -/
def strLower (s : String) : String := ⟨s.data.map Char.toLower⟩

/-- Model of `str.strip()`: drop whitespace from both ends. -/
def strTrim (s : String) : String :=
  ⟨((s.data.dropWhile Char.isWhitespace).reverse.dropWhile Char.isWhitespace).reverse⟩

/-- Character-list form of the Python substring test `pat in s`. -/
def charsContain (pat : List Char) : List Char → Bool
  | [] => pat.isPrefixOf ([] : List Char)
  | c :: rest => pat.isPrefixOf (c :: rest) || charsContain pat rest

/-- Model of the Python substring test `pat in s`. -/
def strContains (s pat : String) : Bool := charsContain pat.data s.data

/-- Lexicographic comparison of character lists by code point, as Python
compares strings. -/
def charsLe : List Char → List Char → Bool
  | [], _ => true
  | _ :: _, [] => false
  | a :: as, b :: bs => if a = b then charsLe as bs else decide (a < b)

/-- Model of Python string comparison `a <= b`. -/
def strLe (a b : String) : Bool := charsLe a.data b.data

/-- Keep one occurrence of every string (model of `set(...)` up to order;
only the sorted image of the result is ever used, as in the source). -/
def dedupStr : List String → List String
  | [] => []
  | x :: xs => if x ∈ xs then dedupStr xs else x :: dedupStr xs

/-- Insert a string into a sorted list (auxiliary for `sortStrings`). -/
def insertStr (x : String) : List String → List String
  | [] => [x]
  | y :: ys => if strLe x y then x :: y :: ys else y :: insertStr x ys

/-- Model of Python `sorted` on lists of strings (insertion sort). -/
def sortStrings : List String → List String
  | [] => []
  | x :: xs => insertStr x (sortStrings xs)

/-- Model of the Python truthiness test `if x` for an optional string:
true exactly when the value is present and non-empty. -/
def truthy (o : Option String) : Bool :=
  match o with
  | none => false
  | some s => !(s = "")

/-- Model of the Python idiom `x or d` for an optional string `x`. -/
def orElseStr (o : Option String) (d : String) : String :=
  match o with
  | none => d
  | some s => if s = "" then d else s

/-- Model of the Python idiom `x or d` for a (non-optional) string `x`. -/
def orStr (s d : String) : String := if s = "" then d else s

/-! ## Data model -/

/-- An image dict supplied by the caller: `image_id`, `url` and
`room_type_hint` are all read with `dict.get`, so any of them may be absent. -/
structure ImageInput where
  image_id : Option String
  url : Option String
  room_type_hint : Option String
deriving DecidableEq, Inhabited

/-- Record returned by `mock_fetch_community` / `mock_fetch_climate` /
`mock_fetch_schools`. -/
structure InsightRecord where
  summary : String
  highlights : List String
  source : String
  updated_at : String
deriving DecidableEq, Inhabited

/-- Record returned by `mock_fetch_crime`; it additionally carries
`risk_level`. -/
structure CrimeRecord where
  summary : String
  risk_level : String
  highlights : List String
  source : String
  updated_at : String
deriving DecidableEq, Inhabited

/-- The dict returned by `fetch_zipcode_insights`: exactly the four keys
`community`, `climate`, `schools`, `crime`. -/
structure ZipcodeInsights where
  community : InsightRecord
  climate : InsightRecord
  schools : InsightRecord
  crime : CrimeRecord
deriving DecidableEq, Inhabited

/-- One entry of `image_enhance_plan` as built by `generate_property_brief`. -/
structure ImageEnhancePlanItem where
  image_id : String
  original_url : String
  room_type_hint : Option String
  suggested_edits : List String
  mock_enhanced_url : String
deriving DecidableEq, Inhabited

/-- The dict returned by `build_brief`. -/
structure Brief where
  highlights : List String
  risk_flags : List String
  confidence_notes : List String
  narrative_markdown : String
deriving DecidableEq, Inhabited

/-- The dict returned by `generate_property_brief`. -/
structure PropertyBriefResult where
  enhancement_prompt : String
  image_enhance_plan : List ImageEnhancePlanItem
  zipcode_insights : ZipcodeInsights
  brief : Brief
deriving DecidableEq, Inhabited

/-! ## Environment and external completion service -/

/-- Process environment as the module reads it: whether `from openai import
OpenAI` succeeded, and the values of the two environment variables. -/
structure Env where
  openai_available : Bool
  openai_api_key : Option String
  openai_model : Option String
deriving DecidableEq, Inhabited

/-- Error taxonomy: `configError` models the `RuntimeError`s raised by
`_get_openai_client`; `serviceError` models an exception raised by the client
library during the completion call (network, quota, malformed response). -/
inductive Err where
  | configError (msg : String)
  | serviceError (msg : String)
deriving DecidableEq, Inhabited

/-- One chat message: a role and its content. -/
structure ChatMessage where
  role : String
  content : String

/-- A request to `client.chat.completions.create`. -/
structure ChatRequest where
  model : String
  messages : List ChatMessage
  temperature : ℚ

/-- A constructed OpenAI client (holds the API key it was built with). -/
structure OpenAIClient where
  api_key : String

/-- The external completion service: maps a request either to a completion
text or to a service-failure message.  Universally quantifying over oracles
models the nondeterminism of the network. -/
def Oracle : Type := ChatRequest → Except String String

/-- Model of `DEFAULT_LLM_MODEL = os.getenv("OPENAI_MODEL", "gpt-4o-mini")`. -/
def DEFAULT_LLM_MODEL (env : Env) : String := env.openai_model.getD "gpt-4o-mini"

/-- Model of `_get_openai_client`: fails with a configuration error when the
library is unavailable or the API key is unset (or empty, per `if not
api_key`), otherwise returns a client. -/
def _get_openai_client (env : Env) : Except Err OpenAIClient :=
  if env.openai_available = false then
    Except.error (Err.configError "openai package is not installed. Run: pip install openai")
  else
    match env.openai_api_key with
    | none => Except.error (Err.configError "OPENAI_API_KEY is not set in the environment.")
    | some k =>
        if k = "" then
          Except.error (Err.configError "OPENAI_API_KEY is not set in the environment.")
        else Except.ok { api_key := k }

/-- Model of `client.chat.completions.create(...)` followed by reading
`response.choices[0].message.content`: consults the oracle and wraps a
failure as `Err.serviceError`. -/
def chat_completion (_client : OpenAIClient) (oracle : Oracle) (req : ChatRequest) :
    Except Err String :=
  match oracle req with
  | Except.error msg => Except.error (Err.serviceError msg)
  | Except.ok text => Except.ok text

/-! ## Insight lookup tables (4.1) -/

/-- Model of `mock_fetch_community`. -/
def mock_fetch_community (zipcode : String) : InsightRecord :=
  let entry : String × List String :=
    if zipcode = "95112" then
      ("Urban neighborhood with mixed residential and commercial blocks.",
       ["Walkable streets and local shops",
        "Access to transit corridors",
        "Active neighborhood associations"])
    else
      ("General community profile for the area.",
       ["Local amenities nearby", "Mixed housing types", "Community events"])
  { summary := entry.1
    highlights := entry.2
    source := "mock_community_dataset_v1"
    updated_at := "2026-01-01" }

/-- Model of `mock_fetch_climate`. -/
def mock_fetch_climate (zipcode : String) : InsightRecord :=
  let entry : String × List String :=
    if zipcode = "95112" then
      ("Mild climate with warm summers and cool winters.",
       ["Warm summer afternoons",
        "Cool evenings in winter",
        "Low annual snowfall"])
    else
      ("Typical regional climate patterns.",
       ["Seasonal temperature variation", "Occasional rain", "Moderate humidity"])
  { summary := entry.1
    highlights := entry.2
    source := "mock_climate_dataset_v1"
    updated_at := "2026-01-01" }

/-- Model of `mock_fetch_schools`. -/
def mock_fetch_schools (zipcode : String) : InsightRecord :=
  let entry : String × List String :=
    if zipcode = "95112" then
      ("Schools show mixed performance with a range of programs.",
       ["Varied academic outcomes across schools",
        "STEM and arts programs available",
        "Some schools within walking distance"])
    else
      ("School options vary by zone.",
       ["Public and private options", "Enrollment varies", "Program availability differs"])
  { summary := entry.1
    highlights := entry.2
    source := "mock_school_dataset_v1"
    updated_at := "2026-01-01" }

/-- Model of `mock_fetch_crime`. -/
def mock_fetch_crime (zipcode : String) : CrimeRecord :=
  let entry : String × String × List String :=
    if zipcode = "95112" then
      ("Crime levels are moderate relative to nearby areas.",
       "Medium",
       ["Property incidents are the most common",
        "Police presence around transit hubs",
        "Neighborhood watch activity reported"])
    else
      ("Crime profile varies within the area.",
       "Medium",
       ["Mixed incident types reported",
        "Some streets are quieter than others",
        "Local safety initiatives exist"])
  { summary := entry.1
    risk_level := entry.2.1
    highlights := entry.2.2
    source := "mock_crime_dataset_v1"
    updated_at := "2026-01-01" }

/-- Model of `fetch_zipcode_insights`: assembles the four category lookups. -/
def fetch_zipcode_insights (zipcode : String) : ZipcodeInsights :=
  { community := mock_fetch_community zipcode
    climate := mock_fetch_climate zipcode
    schools := mock_fetch_schools zipcode
    crime := mock_fetch_crime zipcode }

/-! ## Style and room catalogs (4.2, 4.3) -/

/-- Model of the `style_phrases` dict lookup (with its `.get` fallback) in
`build_enhancement_prompt`. -/
def style_phrase (style : String) : String :=
  if style = "Modern Neutral" then
    "bright, clean, minimal, neutral colors, modern staging"
  else if style = "Luxury" then
    "upscale materials feel, balanced contrast, premium staging, polished look"
  else if style = "Bright Daytime" then
    "daylight feel, brighter exposure, crisp whites, natural shadows"
  else if style = "Warm Cozy" then
    "warmer temperature, inviting tone, soft lighting, cozy staging"
  else "balanced, realistic, tasteful staging"

/-- Model of `_style_suggested_edits`. -/
def _style_suggested_edits (style : String) : List String :=
  if style = "Modern Neutral" then
    ["Use neutral color balance and clean whites",
     "Keep decor minimal and modern"]
  else if style = "Luxury" then
    ["Enhance material richness and balanced contrast",
     "Polish finishes for a premium look"]
  else if style = "Bright Daytime" then
    ["Increase exposure for a daylight feel",
     "Preserve natural shadows and crisp whites"]
  else if style = "Warm Cozy" then
    ["Warm the color temperature slightly",
     "Use soft lighting for an inviting tone"]
  else ["Maintain a balanced, realistic presentation"]

/-- Model of `_room_suggested_edits`. -/
def _room_suggested_edits (room_type_hint : Option String) : List String :=
  if truthy room_type_hint = false then
    ["Refine staging appropriate for the room"]
  else
    let hint := room_type_hint.getD ""
    let suggestion :=
      if hint = "living_room" then "Align furniture, clear cluttered surfaces"
      else if hint = "kitchen" then "Clear counters, enhance appliance finish"
      else if hint = "bedroom" then "Straighten bedding, soften lighting"
      else if hint = "bathroom" then "Polish fixtures, clean mirror reflections"
      else if hint = "dining_room" then "Neaten table setting, balance lighting"
      else "Refine staging appropriate for the room"
    [suggestion]

/-! ## Enhancement prompt generator (4.4) -/

/-- Model of `build_enhancement_prompt`: construct the client (may fail with a
configuration error), build the fixed system/user instruction pair, submit it
to the completion service (may fail with a service error), return the trimmed
response text. -/
def build_enhancement_prompt (env : Env) (oracle : Oracle)
    (style : String) (listing_description : String) (room_type_hint : Option String) :
    Except Err String :=
  match _get_openai_client env with
  | Except.error e => Except.error e
  | Except.ok client =>
    let sp := style_phrase style
    let system_prompt :=
      "You write concise, production-ready image enhancement prompts for real estate photos. " ++
      "Only use the provided inputs. Do not invent property details."
    let user_prompt :=
      "Create one enhancement prompt. Requirements:\n" ++
      "- Must include: lighting correction, color optimization, declutter, staging improvements.\n" ++
      "- Do NOT alter architecture, add fake windows, or change room layout drastically.\n" ++
      "- Style direction: " ++ sp ++ ".\n" ++
      "- Listing context: " ++ orStr listing_description "No listing description provided." ++ "\n" ++
      "- Room type hint: " ++ orElseStr room_type_hint "none" ++ "\n" ++
      "Return only the final prompt as plain text."
    match chat_completion client oracle
        { model := DEFAULT_LLM_MODEL env
          messages := [{ role := "system", content := system_prompt },
                       { role := "user", content := user_prompt }]
          temperature := (0.2 : ℚ) } with
    | Except.error e => Except.error e
    | Except.ok text => Except.ok (strTrim text)

/-! ## Per-image plan builder (4.5, inlined in `generate_property_brief`) -/

/-- The four fixed baseline edits built at the top of the per-image loop in
`generate_property_brief`. -/
def baseline_suggested_edits : List String :=
  ["Correct lighting and exposure",
   "Optimize color balance",
   "Declutter visible surfaces",
   "Refine staging for the room"]

/-- Model of the mock-enhanced-URL template
`f"https://example.com/enhanced/.../{image_id}.jpg"`. -/
def mock_enhanced_url (image_id : String) : String :=
  "https://example.com/enhanced/" ++ image_id ++ ".jpg"

/-- Body of the per-image loop in `generate_property_brief`: one plan item
from one image dict. -/
def make_plan_item (style : String) (image : ImageInput) : ImageEnhancePlanItem :=
  let room_type_hint := image.room_type_hint
  { image_id := image.image_id.getD ""
    original_url := image.url.getD ""
    room_type_hint := room_type_hint
    suggested_edits :=
      baseline_suggested_edits ++ _style_suggested_edits style ++
        _room_suggested_edits room_type_hint
    mock_enhanced_url := mock_enhanced_url (image.image_id.getD "") }

/-! ## Brief composer (4.6) -/

/-- Rendering of one insight record inside the `Data:` part of the user
prompt of `build_brief`.  The source serializes the payload with the Python
stdlib function `json.dumps(user_payload, indent=2)`, which is not part of
this repository; we model it by a fixed deterministic rendering of the same
entries in the same order.  No verified claim depends on this text. -/
def render_insight_record (r : InsightRecord) : String :=
  "summary: " ++ r.summary ++ "; highlights: " ++ String.intercalate " | " r.highlights ++
    "; source: " ++ r.source ++ "; updated_at: " ++ r.updated_at

/-- Rendering of the crime record (see `render_insight_record`). -/
def render_crime_record (r : CrimeRecord) : String :=
  "summary: " ++ r.summary ++ "; risk_level: " ++ r.risk_level ++
    "; highlights: " ++ String.intercalate " | " r.highlights ++
    "; source: " ++ r.source ++ "; updated_at: " ++ r.updated_at

/-- Rendering of the zipcode insights (see `render_insight_record`). -/
def render_zipcode_insights (zi : ZipcodeInsights) : String :=
  "community: " ++ render_insight_record zi.community ++ "\n" ++
  "climate: " ++ render_insight_record zi.climate ++ "\n" ++
  "schools: " ++ render_insight_record zi.schools ++ "\n" ++
  "crime: " ++ render_crime_record zi.crime

/-- Rendering of one image plan item (see `render_insight_record`). -/
def render_plan_item (item : ImageEnhancePlanItem) : String :=
  "image_id: " ++ item.image_id ++ "; original_url: " ++ item.original_url ++
    "; room_type_hint: " ++ orElseStr item.room_type_hint "null" ++
    "; suggested_edits: " ++ String.intercalate " | " item.suggested_edits ++
    "; mock_enhanced_url: " ++ item.mock_enhanced_url

/-- Rendering of the whole `user_payload` dict of `build_brief` (see
`render_insight_record` for why this stands in for `json.dumps`). -/
def render_user_payload (listing_description : String) (zipcode_insights : ZipcodeInsights)
    (image_enhance_plan : List ImageEnhancePlanItem)
    (image_plan_lines image_markdown_blocks risk_flags : List String) : String :=
  "listing_description: " ++ listing_description ++ "\n" ++
  "zipcode_insights:\n" ++ render_zipcode_insights zipcode_insights ++ "\n" ++
  "image_enhance_plan:\n" ++
    String.intercalate "\n" (image_enhance_plan.map render_plan_item) ++ "\n" ++
  "image_plan_lines:\n" ++ String.intercalate "\n" image_plan_lines ++ "\n" ++
  "image_markdown_blocks:\n" ++ String.intercalate "\n" image_markdown_blocks ++ "\n" ++
  "risk_flags:\n" ++ String.intercalate "\n" risk_flags

/-- Highlight assembly of `build_brief` (the successive `highlights.append`
calls of the source), before the final cap to the first 5 entries. -/
def build_brief_highlights (listing_description : String)
    (zipcode_insights : ZipcodeInsights) (image_enhance_plan : List ImageEnhancePlanItem) :
    List String :=
  let highlights : List String := []
  let highlights :=
    if listing_description = "" then highlights
    else highlights ++ ["Listing description: " ++ listing_description]
  let highlights := highlights ++
    ["Planned image enhancements for " ++ toString image_enhance_plan.length ++ " photos"]
  let highlights := highlights ++ ["Community: " ++ zipcode_insights.community.summary]
  let highlights := highlights ++ ["Climate: " ++ zipcode_insights.climate.summary]
  let highlights := highlights ++ ["Schools: " ++ zipcode_insights.schools.summary]
  highlights

/-- Risk-flag derivation of `build_brief` (the successive conditional
`risk_flags.append` calls of the source, in source order). -/
def build_brief_risk_flags (listing_description : String)
    (zipcode_insights : ZipcodeInsights) (image_enhance_plan : List ImageEnhancePlanItem) :
    List String :=
  let risk_flags : List String := []
  let crime_risk := zipcode_insights.crime.risk_level
  let risk_flags :=
    if crime_risk = "Medium" ∨ crime_risk = "High" then
      risk_flags ++ ["Crime risk level reported as " ++ crime_risk]
    else risk_flags
  let school_text := strLower (String.intercalate " " zipcode_insights.schools.highlights)
  let risk_flags :=
    if (["varied", "mixed", "uneven"].any fun keyword => strContains school_text keyword) then
      risk_flags ++ ["School performance appears variable across zones"]
    else risk_flags
  let climate_text := strLower (String.intercalate " " zipcode_insights.climate.highlights)
  let risk_flags :=
    if (["heat", "hot", "storm", "flood", "snow"].any fun keyword =>
          strContains climate_text keyword) then
      risk_flags ++ ["Climate notes include seasonal extremes or events"]
    else risk_flags
  let risk_flags :=
    if listing_description = "" then
      risk_flags ++ ["Listing description is missing or minimal"]
    else risk_flags
  let risk_flags :=
    if image_enhance_plan.isEmpty then
      risk_flags ++ ["No image enhancement plan generated"]
    else risk_flags
  risk_flags

/-- Model of `build_brief`: derive highlights, risk flags and the fixed
confidence notes, build the per-image Markdown lines and blocks, construct
the client (may fail with a configuration error), submit the report
instruction to the completion service (may fail with a service error), and
assemble the Brief with highlights capped to the first 5 entries. -/
def build_brief (env : Env) (oracle : Oracle) (listing_description : String)
    (zipcode_insights : ZipcodeInsights) (image_enhance_plan : List ImageEnhancePlanItem) :
    Except Err Brief :=
  let highlights := build_brief_highlights listing_description zipcode_insights image_enhance_plan
  let risk_flags := build_brief_risk_flags listing_description zipcode_insights image_enhance_plan

  let confidence_notes : List String :=
    ["Zipcode insights are mock data and should be verified with local sources",
     "Image enhancement suggestions are stylistic guidelines, not executed edits"]

  let image_plan_lines := image_enhance_plan.map fun item =>
    "- " ++ item.image_id ++ ": " ++ orElseStr item.room_type_hint "unspecified room"
  let image_markdown_blocks := image_enhance_plan.map fun item =>
    String.intercalate "\n"
      ["**" ++ item.image_id ++ "** (" ++ orElseStr item.room_type_hint "unspecified room" ++ ")",
       "Original: ![](" ++ item.original_url ++ ")",
       "Enhanced (mock): ![](" ++ item.mock_enhanced_url ++ ")"]

  match _get_openai_client env with
  | Except.error e => Except.error e
  | Except.ok client =>
    let system_prompt :=
      "You are a senior real estate analyst. Produce a professional Markdown report. " ++
      "Use only the provided data. Do not invent facts."
    let user_prompt :=
      "Create a Markdown report with these sections, in order:\n" ++
      "Overview\n" ++
      "Image Enhancement Plan\n" ++
      "Images\n" ++
      "Community\n" ++
      "Climate\n" ++
      "Schools\n" ++
      "Crime & Safety\n" ++
      "Risks / What to Verify\n\n" ++
      "Rules:\n" ++
      "- Use ONLY the provided data.\n" ++
      "- Keep it concise and professional.\n" ++
      "- For Images, use the provided image_markdown_blocks verbatim.\n" ++
      "- For Image Enhancement Plan, use image_plan_lines verbatim as bullets.\n" ++
      "- For Risks, use risk_flags; if empty, say no specific risks identified.\n\n" ++
      "Data:\n" ++
      render_user_payload listing_description zipcode_insights image_enhance_plan
        image_plan_lines image_markdown_blocks risk_flags
    match chat_completion client oracle
        { model := DEFAULT_LLM_MODEL env
          messages := [{ role := "system", content := system_prompt },
                       { role := "user", content := user_prompt }]
          temperature := (0.2 : ℚ) } with
    | Except.error e => Except.error e
    | Except.ok text =>
      Except.ok
        { highlights := highlights.take 5
          risk_flags := risk_flags
          confidence_notes := confidence_notes
          narrative_markdown := strTrim text }

/-! ## Orchestrator (4.7) -/

/-- The combined room hint computed at the top of `generate_property_brief`:
the distinct truthy `room_type_hint` values across images, sorted and joined
with a comma, or `none` when no image carries a truthy hint. -/
def combined_room_hint (images : List ImageInput) : Option String :=
  let room_types := images.filterMap fun img =>
    if truthy img.room_type_hint then img.room_type_hint else none
  if room_types.isEmpty then none
  else some (String.intercalate ", " (sortStrings (dedupStr room_types)))

/-- Model of `generate_property_brief`: compute the combined room hint, call
the enhancement prompt generator (first external call — any failure aborts
here), build the per-image plan, fetch the zipcode insights, call the brief
composer (second external call), and assemble the result. -/
def generate_property_brief (env : Env) (oracle1 oracle2 : Oracle)
    (images : List ImageInput) (style : String) (listing_description : String)
    (zipcode : String) : Except Err PropertyBriefResult :=
  let room_hint := combined_room_hint images
  match build_enhancement_prompt env oracle1 style listing_description room_hint with
  | Except.error e => Except.error e
  | Except.ok enhancement_prompt =>
    let image_enhance_plan := images.map (make_plan_item style)
    let zipcode_insights := fetch_zipcode_insights zipcode
    match build_brief env oracle2 listing_description zipcode_insights image_enhance_plan with
    | Except.error e => Except.error e
    | Except.ok brief =>
      Except.ok
        { enhancement_prompt := enhancement_prompt
          image_enhance_plan := image_enhance_plan
          zipcode_insights := zipcode_insights
          brief := brief }

/-! ## Concrete fixtures used by the witnesses -/

/-- An environment in which the client can be constructed. -/
def envOK : Env := { openai_available := true, openai_api_key := some "sk-test", openai_model := none }

/-- An environment in which the openai library failed to import. -/
def envNoLib : Env := { openai_available := false, openai_api_key := some "sk-test", openai_model := none }

/-- An environment with the library available but no API key set. -/
def envNoKey : Env := { openai_available := true, openai_api_key := none, openai_model := none }

/-- A completion service that always answers with a fixed text. -/
def okOracle : Oracle := fun _ => Except.ok " some text "

/-- Extract the success value of an Except, defaulting on error. -/
def okD {α : Type} [Inhabited α] (e : Except Err α) : α :=
  match e with
  | Except.ok r => r
  | Except.error _ => default

/-- A one-image input list with a kitchen hint. -/
def wImages : List ImageInput :=
  [{ image_id := some "img_1", url := some "https://x/a.jpg", room_type_hint := some "kitchen" }]

/-- A successful end-to-end run on `wImages` (unknown zipcode, empty listing
description). -/
def wRun : Except Err PropertyBriefResult :=
  generate_property_brief envOK okOracle okOracle wImages "Luxury" "" "00000"

/-- The result of `wRun`. -/
def wRes : PropertyBriefResult := okD wRun

/-- A successful end-to-end run with a non-empty listing description. -/
def wRunDesc : Except Err PropertyBriefResult :=
  generate_property_brief envOK okOracle okOracle wImages "Luxury" "desc" "00000"

/-- The result of `wRunDesc`. -/
def wResDesc : PropertyBriefResult := okD wRunDesc

/-- A one-item plan used by brief-composer witnesses. -/
def wPlan : List ImageEnhancePlanItem := wImages.map (make_plan_item "Luxury")

/-- A successful direct `build_brief` run on the default insight tables. -/
def wBriefRun : Except Err Brief :=
  build_brief envOK okOracle "desc" (fetch_zipcode_insights "00000") wPlan

/-- The result of `wBriefRun`. -/
def wBrief : Brief := okD wBriefRun

/-! ## Helper lemmas -/

/-- Unfolding a successful `build_brief` run: the Brief fields are the named
deterministic derivations. -/
theorem build_brief_ok_elim (env : Env) (oracle : Oracle) (d : String)
    (zi : ZipcodeInsights) (plan : List ImageEnhancePlanItem) (b : Brief)
    (h : build_brief env oracle d zi plan = Except.ok b) :
    b.highlights = (build_brief_highlights d zi plan).take 5 ∧
    b.risk_flags = build_brief_risk_flags d zi plan ∧
    b.confidence_notes =
      ["Zipcode insights are mock data and should be verified with local sources",
       "Image enhancement suggestions are stylistic guidelines, not executed edits"] := by
  simp only [build_brief] at h
  split at h
  · exact absurd h (by simp)
  · split at h
    · exact absurd h (by simp)
    · injection h with h2
      subst h2
      exact ⟨rfl, rfl, rfl⟩

/-- Unfolding a successful `generate_property_brief` run into its parts. -/
theorem generate_property_brief_ok_elim (env : Env) (o1 o2 : Oracle)
    (images : List ImageInput) (style d z : String) (r : PropertyBriefResult)
    (h : generate_property_brief env o1 o2 images style d z = Except.ok r) :
    build_enhancement_prompt env o1 style d (combined_room_hint images) =
      Except.ok r.enhancement_prompt ∧
    build_brief env o2 d (fetch_zipcode_insights z) (images.map (make_plan_item style)) =
      Except.ok r.brief ∧
    r.image_enhance_plan = images.map (make_plan_item style) ∧
    r.zipcode_insights = fetch_zipcode_insights z := by
  simp only [generate_property_brief] at h
  split at h
  · exact absurd h (by simp)
  · rename_i p hp
    split at h
    · exact absurd h (by simp)
    · rename_i br hbr
      injection h with h2
      subst h2
      exact ⟨hp, hbr, rfl, rfl⟩

/-- When the client cannot be constructed, `_get_openai_client` returns a
configuration error. -/
theorem client_config_error (env : Env)
    (h : env.openai_available = false ∨ env.openai_api_key = none ∨ env.openai_api_key = some "") :
    ∃ msg, _get_openai_client env = Except.error (Err.configError msg) := by
  rcases h with h | h | h
  · exact ⟨"openai package is not installed. Run: pip install openai",
      by simp [_get_openai_client, h]⟩
  · by_cases hav : env.openai_available = false
    · exact ⟨"openai package is not installed. Run: pip install openai",
        by simp [_get_openai_client, hav]⟩
    · exact ⟨"OPENAI_API_KEY is not set in the environment.",
        by simp [_get_openai_client, hav, h]⟩
  · by_cases hav : env.openai_available = false
    · exact ⟨"openai package is not installed. Run: pip install openai",
        by simp [_get_openai_client, hav]⟩
    · exact ⟨"OPENAI_API_KEY is not set in the environment.",
        by simp [_get_openai_client, hav, h]⟩

/-- A client-construction failure short-circuits `build_enhancement_prompt`
for every oracle. -/
theorem build_enhancement_prompt_client_error (env : Env) (e : Err)
    (h : _get_openai_client env = Except.error e) (oracle : Oracle)
    (style d : String) (hint : Option String) :
    build_enhancement_prompt env oracle style d hint = Except.error e := by
  simp only [build_enhancement_prompt, h]

/-- A client-construction failure short-circuits `build_brief` for every
oracle. -/
theorem build_brief_client_error (env : Env) (e : Err)
    (h : _get_openai_client env = Except.error e) (oracle : Oracle)
    (d : String) (zi : ZipcodeInsights) (plan : List ImageEnhancePlanItem) :
    build_brief env oracle d zi plan = Except.error e := by
  simp only [build_brief, h]

/-! ## Specification-side constants for the refinement claims -/

/-- Curated insight record set for zipcode 95112, transcribed from the
specification text (section 4.1 / section 8), to be compared with what
`fetch_zipcode_insights` computes. -/
def spec_insights_95112 : ZipcodeInsights :=
  { community :=
      { summary := "Urban neighborhood with mixed residential and commercial blocks."
        highlights :=
          ["Walkable streets and local shops",
           "Access to transit corridors",
           "Active neighborhood associations"]
        source := "mock_community_dataset_v1"
        updated_at := "2026-01-01" }
    climate :=
      { summary := "Mild climate with warm summers and cool winters."
        highlights :=
          ["Warm summer afternoons",
           "Cool evenings in winter",
           "Low annual snowfall"]
        source := "mock_climate_dataset_v1"
        updated_at := "2026-01-01" }
    schools :=
      { summary := "Schools show mixed performance with a range of programs."
        highlights :=
          ["Varied academic outcomes across schools",
           "STEM and arts programs available",
           "Some schools within walking distance"]
        source := "mock_school_dataset_v1"
        updated_at := "2026-01-01" }
    crime :=
      { summary := "Crime levels are moderate relative to nearby areas."
        risk_level := "Medium"
        highlights :=
          ["Property incidents are the most common",
           "Police presence around transit hubs",
           "Neighborhood watch activity reported"]
        source := "mock_crime_dataset_v1"
        updated_at := "2026-01-01" } }

/-- Fixed default insight record set for every unknown zipcode, transcribed
from the specification text, to be compared with what
`fetch_zipcode_insights` computes. -/
def spec_default_insights : ZipcodeInsights :=
  { community :=
      { summary := "General community profile for the area."
        highlights := ["Local amenities nearby", "Mixed housing types", "Community events"]
        source := "mock_community_dataset_v1"
        updated_at := "2026-01-01" }
    climate :=
      { summary := "Typical regional climate patterns."
        highlights := ["Seasonal temperature variation", "Occasional rain", "Moderate humidity"]
        source := "mock_climate_dataset_v1"
        updated_at := "2026-01-01" }
    schools :=
      { summary := "School options vary by zone."
        highlights := ["Public and private options", "Enrollment varies", "Program availability differs"]
        source := "mock_school_dataset_v1"
        updated_at := "2026-01-01" }
    crime :=
      { summary := "Crime profile varies within the area."
        risk_level := "Medium"
        highlights :=
          ["Mixed incident types reported",
           "Some streets are quieter than others",
           "Local safety initiatives exist"]
        source := "mock_crime_dataset_v1"
        updated_at := "2026-01-01" } }

/-! ## Claims -/

/-- C2: for every zipcode string, `fetch_zipcode_insights` returns a mapping
with exactly the four keys community, climate, schools, crime (the
`ZipcodeInsights` structure); for "95112" each category equals its curated
table entry, and for every other string (including the empty string and
non-numeric strings) each category equals its fixed category-specific
default record.  The function is a total pure function, so it never fails. -/
theorem claim_C2 :
    fetch_zipcode_insights "95112" = spec_insights_95112 ∧
    ∀ zipcode : String, zipcode ≠ "95112" →
      fetch_zipcode_insights zipcode = spec_default_insights := by
  constructor
  · rfl
  · intro zipcode hz
    simp [fetch_zipcode_insights, mock_fetch_community, mock_fetch_climate,
      mock_fetch_schools, mock_fetch_crime, spec_default_insights, hz]

/-- Witness for C2 at the empty-string zipcode. -/
theorem claim_C2_witness :
    ("" : String) ≠ "95112" ∧ fetch_zipcode_insights "" = spec_default_insights :=
  ⟨by decide, claim_C2.2 "" (by decide)⟩

/-- C7: every style name outside the four known styles resolves to the
generic fallback phrase and the 1-item fallback edit list; a room hint of
`none` or the empty string yields exactly the fixed fallback room edit; and
the catalog lookups are total: the style list is never empty and the room
lookup always returns exactly one item, for arbitrary input. -/
theorem claim_C7 :
    (∀ style : String,
      style ∉ (["Modern Neutral", "Luxury", "Bright Daytime", "Warm Cozy"] : List String) →
      style_phrase style = "balanced, realistic, tasteful staging" ∧
      _style_suggested_edits style = ["Maintain a balanced, realistic presentation"]) ∧
    _room_suggested_edits none = ["Refine staging appropriate for the room"] ∧
    _room_suggested_edits (some "") = ["Refine staging appropriate for the room"] ∧
    (∀ o : Option String, (_room_suggested_edits o).length = 1) ∧
    (∀ style : String, _style_suggested_edits style ≠ []) := by
  refine ⟨?_, by decide, by decide, ?_, ?_⟩
  · intro style hs
    simp only [List.mem_cons, List.not_mem_nil, or_false] at hs
    push_neg at hs
    obtain ⟨h1, h2, h3, h4⟩ := hs
    constructor
    · simp [style_phrase, h1, h2, h3, h4]
    · simp [_style_suggested_edits, h1, h2, h3, h4]
  · intro o
    unfold _room_suggested_edits
    split
    · rfl
    · rfl
  · intro style
    by_cases h1 : style = "Modern Neutral" <;>
      by_cases h2 : style = "Luxury" <;>
      by_cases h3 : style = "Bright Daytime" <;>
      by_cases h4 : style = "Warm Cozy" <;>
      simp [_style_suggested_edits, h1, h2, h3, h4]

/-- Witness for C7 at the unknown style "Rustic". -/
theorem claim_C7_witness :
    ("Rustic" : String) ∉ (["Modern Neutral", "Luxury", "Bright Daytime", "Warm Cozy"] : List String) ∧
    style_phrase "Rustic" = "balanced, realistic, tasteful staging" ∧
    _style_suggested_edits "Rustic" = ["Maintain a balanced, realistic presentation"] :=
  ⟨by decide, (claim_C7.1 "Rustic" (by decide)).1, (claim_C7.1 "Rustic" (by decide)).2⟩

/-- C9: the deterministic plan-building step is total over structurally
incomplete image dicts: a missing `image_id` yields the empty string in the
item and the URL "https://example.com/enhanced/.jpg"; a missing `url` yields
an empty `original_url`; a missing `room_type_hint` is treated exactly as
`None` (the fallback room edit is used and the item stores no hint); and for
every image list the plan step produces one item per image without failing. -/
theorem claim_C9 :
    (∀ (style : String) (u hint : Option String),
      (make_plan_item style { image_id := none, url := u, room_type_hint := hint }).image_id = "" ∧
      (make_plan_item style { image_id := none, url := u, room_type_hint := hint }).mock_enhanced_url =
        "https://example.com/enhanced/.jpg") ∧
    (∀ (style : String) (iid hint : Option String),
      (make_plan_item style { image_id := iid, url := none, room_type_hint := hint }).original_url = "") ∧
    (∀ (style : String) (iid u : Option String),
      (make_plan_item style { image_id := iid, url := u, room_type_hint := none }).suggested_edits =
        baseline_suggested_edits ++ _style_suggested_edits style ++
          ["Refine staging appropriate for the room"] ∧
      (make_plan_item style { image_id := iid, url := u, room_type_hint := none }).room_type_hint =
        none) ∧
    (∀ (style : String) (images : List ImageInput),
      (images.map (make_plan_item style)).length = images.length) := by
  refine ⟨?_, ?_, ?_, ?_⟩
  · intro style u hint
    constructor
    · rfl
    · simp [make_plan_item, mock_enhanced_url]
  · intro style iid hint
    rfl
  · intro style iid u
    constructor
    · rfl
    · rfl
  · intro style images
    simp

/-- C10: `mock_fetch_crime` reports risk_level "Medium" for every zipcode
(curated and default), so for insights produced by `fetch_zipcode_insights`
the derived risk flags always start with the Medium crime flag and are never
empty, both for `build_brief` directly and through the orchestrator; the
empty-risk_flags fallback path is unreachable that way. -/
theorem claim_C10 :
    (∀ zipcode : String, (mock_fetch_crime zipcode).risk_level = "Medium") ∧
    (∀ (d zipcode : String) (plan : List ImageEnhancePlanItem),
      (build_brief_risk_flags d (fetch_zipcode_insights zipcode) plan).head? =
        some "Crime risk level reported as Medium" ∧
      build_brief_risk_flags d (fetch_zipcode_insights zipcode) plan ≠ []) ∧
    (∀ (env : Env) (oracle : Oracle) (d zipcode : String)
       (plan : List ImageEnhancePlanItem) (b : Brief),
      build_brief env oracle d (fetch_zipcode_insights zipcode) plan = Except.ok b →
      b.risk_flags ≠ []) ∧
    (∀ (env : Env) (o1 o2 : Oracle) (images : List ImageInput) (style d zipcode : String)
       (r : PropertyBriefResult),
      generate_property_brief env o1 o2 images style d zipcode = Except.ok r →
      r.brief.risk_flags ≠ []) := by
  have hM : ∀ zipcode : String, (mock_fetch_crime zipcode).risk_level = "Medium" := by
    intro zipcode
    by_cases h : zipcode = "95112" <;> simp [mock_fetch_crime, h]
  have hflags : ∀ (d zipcode : String) (plan : List ImageEnhancePlanItem),
      (build_brief_risk_flags d (fetch_zipcode_insights zipcode) plan).head? =
        some "Crime risk level reported as Medium" ∧
      build_brief_risk_flags d (fetch_zipcode_insights zipcode) plan ≠ [] := by
    intro d zipcode plan
    have hcr : (fetch_zipcode_insights zipcode).crime.risk_level = "Medium" := hM zipcode
    simp only [build_brief_risk_flags, hcr]
    by_cases h2 : (["varied", "mixed", "uneven"].any fun keyword =>
        strContains (strLower (String.intercalate " "
          (fetch_zipcode_insights zipcode).schools.highlights)) keyword) = true <;>
      by_cases h3 : (["heat", "hot", "storm", "flood", "snow"].any fun keyword =>
        strContains (strLower (String.intercalate " "
          (fetch_zipcode_insights zipcode).climate.highlights)) keyword) = true <;>
      by_cases h4 : d = "" <;>
      by_cases h5 : plan.isEmpty = true <;>
      simp [h2, h3, h4, h5]
  refine ⟨hM, hflags, ?_, ?_⟩
  · intro env oracle d zipcode plan b h
    obtain ⟨-, hrf, -⟩ := build_brief_ok_elim env oracle d (fetch_zipcode_insights zipcode) plan b h
    rw [hrf]
    exact (hflags d zipcode plan).2
  · intro env o1 o2 images style d zipcode r h
    obtain ⟨-, hbb, -, -⟩ :=
      generate_property_brief_ok_elim env o1 o2 images style d zipcode r h
    obtain ⟨-, hrf, -⟩ := build_brief_ok_elim env o2 d (fetch_zipcode_insights zipcode)
      (images.map (make_plan_item style)) r.brief hbb
    rw [hrf]
    exact (hflags d zipcode (images.map (make_plan_item style))).2

/-- Witness for C10 on a concrete successful end-to-end run. -/
theorem claim_C10_witness :
    wRun = Except.ok wRes ∧ wRes.brief.risk_flags ≠ [] :=
  ⟨rfl, claim_C10.2.2.2 envOK okOracle okOracle wImages "Luxury" "" "00000" wRes rfl⟩

/-- C1: a successful `generate_property_brief` run on an image list of
length N produces an `image_enhance_plan` with exactly N items, in input
order, each item being `make_plan_item` of the corresponding image; each
item carries the 4 baseline edits followed by the style edits then the room
edits for its own hint, in that order; and `mock_enhanced_url` is the fixed
template around the image id, so "img_7" yields
"https://example.com/enhanced/img_7.jpg" and a missing image id yields
"https://example.com/enhanced/.jpg". -/
theorem claim_C1 (env : Env) (o1 o2 : Oracle) (images : List ImageInput)
    (style d z : String) (r : PropertyBriefResult)
    (h : generate_property_brief env o1 o2 images style d z = Except.ok r) :
    r.image_enhance_plan = images.map (make_plan_item style) ∧
    r.image_enhance_plan.length = images.length ∧
    (∀ img : ImageInput,
      (make_plan_item style img).suggested_edits =
        baseline_suggested_edits ++ _style_suggested_edits style ++
          _room_suggested_edits img.room_type_hint ∧
      (make_plan_item style img).mock_enhanced_url =
        "https://example.com/enhanced/" ++ img.image_id.getD "" ++ ".jpg") ∧
    mock_enhanced_url "img_7" = "https://example.com/enhanced/img_7.jpg" ∧
    (∀ u hint : Option String,
      (make_plan_item style { image_id := none, url := u, room_type_hint := hint }).mock_enhanced_url =
        "https://example.com/enhanced/.jpg") := by
  obtain ⟨-, -, hplan, -⟩ := generate_property_brief_ok_elim env o1 o2 images style d z r h
  refine ⟨hplan, ?_, ?_, by decide, ?_⟩
  · rw [hplan]; simp
  · intro img
    exact ⟨rfl, rfl⟩
  · intro u hint
    simp [make_plan_item, mock_enhanced_url]

/-- Witness for C1 on a concrete successful run with one kitchen image. -/
theorem claim_C1_witness :
    wRun = Except.ok wRes ∧
    wRes.image_enhance_plan = wImages.map (make_plan_item "Luxury") :=
  ⟨rfl, (claim_C1 envOK okOracle okOracle wImages "Luxury" "" "00000" wRes rfl).1⟩

/-- C3: a successful `build_brief` run derives `risk_flags` as the fixed
ordered concatenation of five independent conditional flags (crime level
Medium/High, school-variability keywords, climate-extremes keywords, empty
listing description, empty image plan); in particular, when the crime risk
level is "Medium" and no other condition holds, `risk_flags` is exactly the
single entry naming "Medium". -/
theorem claim_C3 (env : Env) (oracle : Oracle) (d : String) (zi : ZipcodeInsights)
    (plan : List ImageEnhancePlanItem) (b : Brief)
    (h : build_brief env oracle d zi plan = Except.ok b) :
    b.risk_flags =
      (if zi.crime.risk_level = "Medium" ∨ zi.crime.risk_level = "High" then
        ["Crime risk level reported as " ++ zi.crime.risk_level]
      else []) ++
      (if (["varied", "mixed", "uneven"].any fun keyword =>
            strContains (strLower (String.intercalate " " zi.schools.highlights)) keyword) then
        ["School performance appears variable across zones"]
      else []) ++
      (if (["heat", "hot", "storm", "flood", "snow"].any fun keyword =>
            strContains (strLower (String.intercalate " " zi.climate.highlights)) keyword) then
        ["Climate notes include seasonal extremes or events"]
      else []) ++
      (if d = "" then ["Listing description is missing or minimal"] else []) ++
      (if plan.isEmpty then ["No image enhancement plan generated"] else []) ∧
    (zi.crime.risk_level = "Medium" →
      (["varied", "mixed", "uneven"].any fun keyword =>
        strContains (strLower (String.intercalate " " zi.schools.highlights)) keyword) = false →
      (["heat", "hot", "storm", "flood", "snow"].any fun keyword =>
        strContains (strLower (String.intercalate " " zi.climate.highlights)) keyword) = false →
      d ≠ "" → plan ≠ [] →
      b.risk_flags = ["Crime risk level reported as Medium"]) := by
  obtain ⟨-, hrf, -⟩ := build_brief_ok_elim env oracle d zi plan b h
  have hexpand : b.risk_flags =
      (if zi.crime.risk_level = "Medium" ∨ zi.crime.risk_level = "High" then
        ["Crime risk level reported as " ++ zi.crime.risk_level]
      else []) ++
      (if (["varied", "mixed", "uneven"].any fun keyword =>
            strContains (strLower (String.intercalate " " zi.schools.highlights)) keyword) then
        ["School performance appears variable across zones"]
      else []) ++
      (if (["heat", "hot", "storm", "flood", "snow"].any fun keyword =>
            strContains (strLower (String.intercalate " " zi.climate.highlights)) keyword) then
        ["Climate notes include seasonal extremes or events"]
      else []) ++
      (if d = "" then ["Listing description is missing or minimal"] else []) ++
      (if plan.isEmpty then ["No image enhancement plan generated"] else []) := by
    rw [hrf]
    by_cases h1 : zi.crime.risk_level = "Medium" ∨ zi.crime.risk_level = "High" <;>
      by_cases h2 : (["varied", "mixed", "uneven"].any fun keyword =>
        strContains (strLower (String.intercalate " " zi.schools.highlights)) keyword) = true <;>
      by_cases h3 : (["heat", "hot", "storm", "flood", "snow"].any fun keyword =>
        strContains (strLower (String.intercalate " " zi.climate.highlights)) keyword) = true <;>
      by_cases h4 : d = "" <;>
      by_cases h5 : plan.isEmpty = true <;>
      simp [build_brief_risk_flags, h1, h2, h3, h4, h5]
  refine ⟨hexpand, ?_⟩
  intro hM hS hC hd hp
  have hp' : plan.isEmpty = false := by
    cases plan
    · exact absurd rfl hp
    · rfl
  rw [hexpand, hM, hS, hC]
  simp [hd, hp']

/-- Witness for C3: the default tables with a non-empty description and a
non-empty plan produce exactly the single Medium crime flag. -/
theorem claim_C3_witness :
    wBriefRun = Except.ok wBrief ∧
    wBrief.risk_flags = ["Crime risk level reported as Medium"] :=
  ⟨rfl,
    (claim_C3 envOK okOracle "desc" (fetch_zipcode_insights "00000") wPlan wBrief rfl).2
      (by decide) (by decide) (by decide) (by decide) (by decide)⟩

/-- C4: a successful `build_brief` run assembles highlights in a fixed
order — the listing-description line only when the description is non-empty,
then always the photo-count line, then the community, climate and schools
summary lines — and the Brief keeps the first 5 entries of that assembly. -/
theorem claim_C4 (env : Env) (oracle : Oracle) (d : String) (zi : ZipcodeInsights)
    (plan : List ImageEnhancePlanItem) (b : Brief)
    (h : build_brief env oracle d zi plan = Except.ok b) :
    b.highlights =
      ((if d = "" then [] else ["Listing description: " ++ d]) ++
        ["Planned image enhancements for " ++ toString plan.length ++ " photos",
         "Community: " ++ zi.community.summary,
         "Climate: " ++ zi.climate.summary,
         "Schools: " ++ zi.schools.summary]).take 5 := by
  obtain ⟨hh, -, -⟩ := build_brief_ok_elim env oracle d zi plan b h
  rw [hh]
  congr 1
  by_cases hd : d = "" <;> simp [build_brief_highlights, hd]

/-- Witness for C4 on the default tables with a one-item plan. -/
theorem claim_C4_witness :
    wBriefRun = Except.ok wBrief ∧
    wBrief.highlights =
      ["Listing description: desc",
       "Planned image enhancements for 1 photos",
       "Community: General community profile for the area.",
       "Climate: Typical regional climate patterns.",
       "Schools: School options vary by zone."] :=
  ⟨rfl, by
    rw [claim_C4 envOK okOracle "desc" (fetch_zipcode_insights "00000") wPlan wBrief rfl]
    decide⟩

/-- C5: whenever the completion client cannot be constructed (library
missing, or API key unset or empty), both `build_enhancement_prompt` and
`build_brief` fail with a configuration error; the result is identical for
every oracle, so the failure happens before any network attempt; and a
configuration error is distinct from a service error by construction. -/
theorem claim_C5 (env : Env)
    (h : env.openai_available = false ∨ env.openai_api_key = none ∨ env.openai_api_key = some "") :
    (∀ (oracle : Oracle) (style d : String) (hint : Option String),
      ∃ msg, build_enhancement_prompt env oracle style d hint =
        Except.error (Err.configError msg)) ∧
    (∀ (oracle : Oracle) (d : String) (zi : ZipcodeInsights)
       (plan : List ImageEnhancePlanItem),
      ∃ msg, build_brief env oracle d zi plan = Except.error (Err.configError msg)) ∧
    (∀ (o o' : Oracle) (style d : String) (hint : Option String),
      build_enhancement_prompt env o style d hint = build_enhancement_prompt env o' style d hint) ∧
    (∀ (o o' : Oracle) (d : String) (zi : ZipcodeInsights)
       (plan : List ImageEnhancePlanItem),
      build_brief env o d zi plan = build_brief env o' d zi plan) ∧
    (∀ m m' : String, Err.configError m ≠ Err.serviceError m') := by
  obtain ⟨msg, hc⟩ := client_config_error env h
  refine ⟨?_, ?_, ?_, ?_, ?_⟩
  · intro oracle style d hint
    exact ⟨msg, build_enhancement_prompt_client_error env _ hc oracle style d hint⟩
  · intro oracle d zi plan
    exact ⟨msg, build_brief_client_error env _ hc oracle d zi plan⟩
  · intro o o' style d hint
    rw [build_enhancement_prompt_client_error env _ hc o style d hint,
      build_enhancement_prompt_client_error env _ hc o' style d hint]
  · intro o o' d zi plan
    rw [build_brief_client_error env _ hc o d zi plan,
      build_brief_client_error env _ hc o' d zi plan]
  · intro m m' hmm
    exact Err.noConfusion hmm

/-- Witness for C5 in an environment with no API key set. -/
theorem claim_C5_witness :
    (envNoKey.openai_available = false ∨ envNoKey.openai_api_key = none ∨
      envNoKey.openai_api_key = some "") ∧
    (∃ msg, build_enhancement_prompt envNoKey okOracle "Luxury" "desc" none =
      Except.error (Err.configError msg)) ∧
    (∃ msg, build_brief envNoKey okOracle "desc" spec_default_insights [] =
      Except.error (Err.configError msg)) :=
  ⟨by decide,
   (claim_C5 envNoKey (by decide)).1 okOracle "Luxury" "desc" none,
   (claim_C5 envNoKey (by decide)).2.1 okOracle "desc" spec_default_insights []⟩

/-- C6: if `build_enhancement_prompt` fails, `generate_property_brief`
returns that very error, for every second oracle and zipcode — so the run
aborts before the image plan and insight lookups matter; if the brief
composition fails after a successful prompt, the run also returns that
error; and a successful run determines both external results, so no partial
`PropertyBriefResult` is ever returned. -/
theorem claim_C6 (env : Env) (o1 o2 : Oracle) (images : List ImageInput)
    (style d z : String) :
    (∀ e : Err,
      build_enhancement_prompt env o1 style d (combined_room_hint images) = Except.error e →
      generate_property_brief env o1 o2 images style d z = Except.error e) ∧
    (∀ (p : String) (e : Err),
      build_enhancement_prompt env o1 style d (combined_room_hint images) = Except.ok p →
      build_brief env o2 d (fetch_zipcode_insights z) (images.map (make_plan_item style)) =
        Except.error e →
      generate_property_brief env o1 o2 images style d z = Except.error e) ∧
    (∀ r : PropertyBriefResult,
      generate_property_brief env o1 o2 images style d z = Except.ok r →
      build_enhancement_prompt env o1 style d (combined_room_hint images) =
        Except.ok r.enhancement_prompt ∧
      build_brief env o2 d (fetch_zipcode_insights z) (images.map (make_plan_item style)) =
        Except.ok r.brief) := by
  refine ⟨?_, ?_, ?_⟩
  · intro e he
    simp only [generate_property_brief, he]
  · intro p e hp hb
    simp only [generate_property_brief, hp, hb]
  · intro r h
    obtain ⟨h1, h2, -, -⟩ := generate_property_brief_ok_elim env o1 o2 images style d z r h
    exact ⟨h1, h2⟩

/-- Witness for C6: with the client library missing, the prompt step fails
with the configuration error and the orchestrator returns that same error. -/
theorem claim_C6_witness :
    build_enhancement_prompt envNoLib okOracle "Luxury" "desc" (combined_room_hint wImages) =
      Except.error (Err.configError "openai package is not installed. Run: pip install openai") ∧
    generate_property_brief envNoLib okOracle okOracle wImages "Luxury" "desc" "95112" =
      Except.error (Err.configError "openai package is not installed. Run: pip install openai") :=
  ⟨rfl,
   (claim_C6 envNoLib okOracle okOracle wImages "Luxury" "desc" "95112").1
     (Err.configError "openai package is not installed. Run: pip install openai") rfl⟩

/-- C8: `generate_property_brief` passes the combined room hint — not any
individual image hint — to `build_enhancement_prompt`: a successful run
agrees with `build_enhancement_prompt` applied at `combined_room_hint
images`; the combined hint is `none` exactly when no image carries a truthy
hint, and otherwise it is the comma-join of the sorted deduplicated truthy
hint values. -/
theorem claim_C8 (env : Env) (o1 o2 : Oracle) (images : List ImageInput)
    (style d z : String) :
    (∀ r : PropertyBriefResult,
      generate_property_brief env o1 o2 images style d z = Except.ok r →
      build_enhancement_prompt env o1 style d (combined_room_hint images) =
        Except.ok r.enhancement_prompt) ∧
    (combined_room_hint images = none ↔
      ∀ img ∈ images, truthy img.room_type_hint = false) ∧
    (∀ s : String, combined_room_hint images = some s →
      s = String.intercalate ", "
        (sortStrings (dedupStr (images.filterMap fun img =>
          if truthy img.room_type_hint then img.room_type_hint else none)))) := by
  have hnil : (images.filterMap fun img =>
      if truthy img.room_type_hint then img.room_type_hint else none) = [] ↔
      ∀ img ∈ images, truthy img.room_type_hint = false := by
    rw [List.filterMap_eq_nil_iff]
    constructor
    · intro h img hm
      have h2 := h img hm
      by_contra htr
      rw [Bool.not_eq_false] at htr
      rw [if_pos htr] at h2
      cases hcase : img.room_type_hint with
      | none => rw [hcase] at htr; exact Bool.noConfusion htr
      | some s => rw [hcase] at h2; exact Option.noConfusion h2
    · intro h img hm
      rw [h img hm]
      simp
  refine ⟨?_, ?_, ?_⟩
  · intro r h
    exact (generate_property_brief_ok_elim env o1 o2 images style d z r h).1
  · rw [combined_room_hint]
    by_cases hemp : (images.filterMap fun img =>
        if truthy img.room_type_hint then img.room_type_hint else none).isEmpty = true
    · rw [if_pos hemp]
      simpa [List.isEmpty_iff] using hnil.mp (List.isEmpty_iff.mp hemp)
    · rw [if_neg hemp]
      simp only [List.isEmpty_iff] at hemp
      constructor
      · intro hsome
        exact Option.noConfusion hsome
      · intro hall
        exact absurd (hnil.mpr hall) hemp
  · intro s hs
    rw [combined_room_hint] at hs
    by_cases hemp : (images.filterMap fun img =>
        if truthy img.room_type_hint then img.room_type_hint else none).isEmpty = true
    · rw [if_pos hemp] at hs
      exact Option.noConfusion hs
    · rw [if_neg hemp] at hs
      exact (Option.some.injEq _ _ ▸ hs).symm

/-- Witness for C8: the one-image kitchen run agrees with the prompt
generator applied at the combined hint, and a three-hint list is
deduplicated and sorted into "bedroom, kitchen". -/
theorem claim_C8_witness :
    (wRun = Except.ok wRes ∧
     build_enhancement_prompt envOK okOracle "Luxury" "" (combined_room_hint wImages) =
       Except.ok wRes.enhancement_prompt) ∧
    combined_room_hint
      [{ image_id := some "a", url := none, room_type_hint := some "kitchen" },
       { image_id := some "b", url := none, room_type_hint := some "bedroom" },
       { image_id := some "c", url := none, room_type_hint := some "kitchen" },
       { image_id := some "d", url := none, room_type_hint := none }] =
      some "bedroom, kitchen" :=
  ⟨⟨rfl, (claim_C8 envOK okOracle okOracle wImages "Luxury" "" "00000").1 wRes rfl⟩, rfl⟩
